import Mathlib

/-!
# Bond-management peripheral: boot policy, authorization gate, input bridge

A shallow embedding of `src/main.c` (with the declarations of
`src/remote/remote.h`).  The firmware is glue around an external Bluetooth
host stack, so the embedding is state passing over a `State` record that holds

* the program's own static variables (`numberOfbondedDevices`, `current_conn`),
* the part of the outside world the program acts on (the controller's
  whitelist, the value kept by `set_button_value`), and
* `trace`, the sequence of calls the program makes into the stack, the board
  library and `remote.c`, in program order.

Return values of external calls are read from an `Env` record, so every
theorem quantifies over every possible behaviour of the stack.  Logging
(`printk`, `LOG_ERR`) changes no state and is not part of the embedding.
-/

namespace BleBms

/-! ## Data model -/

/-- Connection object of the host stack; a value stands for a non-NULL
`struct bt_conn *`. -/
abbrev bt_conn := Nat

/-- Link-layer address: address type and 48-bit value (`bt_addr_le_t`). -/
structure bt_addr_le_t where
  type : Nat
  val : Nat
deriving DecidableEq, Repr

/-- Bond record handed to the enumeration visitor (`struct bt_bond_info`). -/
structure bt_bond_info where
  addr : bt_addr_le_t
deriving DecidableEq, Repr

/-- One operation of the Bond Management Service (`struct bt_bms_feature`). -/
structure bt_bms_feature where
  supported : Bool
  authorize : Bool
deriving DecidableEq, Repr

/-- The three operations of the service (`struct bt_bms_features`). -/
structure bt_bms_features where
  delete_requesting : bt_bms_feature
  delete_rest : bt_bms_feature
  delete_all : bt_bms_feature
deriving DecidableEq, Repr

/-- Callbacks that `bms_init` registers: the table `bms_callbacks` holds
exactly one entry, `.authorize = bms_authorize`. -/
inductive bt_bms_cb where
  | bms_callbacks
deriving DecidableEq, Repr

/-- Argument of `bt_bms_init` (`struct bt_bms_init_params`); `cbs` is a
pointer, NULL being `none`. -/
structure bt_bms_init_params where
  features : bt_bms_features
  cbs : Option bt_bms_cb
deriving DecidableEq, Repr

/-- Argument of the authorization callback (`struct bt_bms_authorize_params`).
`code` is a pointer to bytes: `code i` is the byte at offset `i`.  `code_len`
is a `uint16_t`. -/
structure bt_bms_authorize_params where
  code : Nat → Nat
  code_len : Nat

/-- Advertising parameters as `main` writes them: either the stack's
predefined set `BT_LE_ADV_CONN`, or `BT_LE_ADV_PARAM(options, int_min,
int_max, peer)` with `peer = NULL` being `none`. -/
inductive bt_le_adv_param where
  | BT_LE_ADV_CONN
  | BT_LE_ADV_PARAM (options int_min int_max : Nat) (peer : Option bt_addr_le_t)
deriving DecidableEq, Repr

/-- Board LEDs used by the program (`RUN_STATUS_LED = DK_LED1`,
`CON_STATUS_LED = DK_LED2`). -/
inductive Led where
  | RUN_STATUS_LED
  | CON_STATUS_LED
deriving DecidableEq, Repr

/-- Calls the program makes into code outside `main.c`.  `bt_le_adv_start`
also records the whitelist the controller holds when the call is issued, which
is what filtered advertising then uses. -/
inductive Call where
  | dk_buttons_init
  | dk_leds_init
  | bt_conn_cb_register
  | bt_conn_auth_cb_register
  | ble_cb_custom_init
  | bt_enable
  | settings_load
  | bt_bms_init (params : bt_bms_init_params)
  | bt_foreach_bond
  | bt_le_whitelist_add (addr : bt_addr_le_t)
  | bt_le_adv_start (param : bt_le_adv_param) (whitelist : List bt_addr_le_t)
  | set_button_value (btn_value : Nat)
  | send_button_notification (conn : Option bt_conn) (value : Nat)
  | bt_conn_ref (conn : bt_conn)
  | bt_conn_unref (conn : bt_conn)
  | dk_set_led_on (led : Led)
  | dk_set_led_off (led : Led)
deriving DecidableEq, Repr

/-- Constants of `dk_buttons_and_leds.h` that `button_handler` switches on.
The header is not part of the sources, so the four masks are parameters. -/
structure DkButtons where
  DK_BTN1_MSK : Nat
  DK_BTN2_MSK : Nat
  DK_BTN3_MSK : Nat
  DK_BTN4_MSK : Nat
deriving DecidableEq, Repr

/-- The masks of the four buttons. -/
def DkButtons.masks (M : DkButtons) : List Nat :=
  [M.DK_BTN1_MSK, M.DK_BTN2_MSK, M.DK_BTN3_MSK, M.DK_BTN4_MSK]

/-- The four `case` labels of one `switch` are pairwise different (a C
compiler rejects the program otherwise). -/
def DkButtons.distinct (M : DkButtons) : Prop := M.masks.Nodup

instance (M : DkButtons) : Decidable M.distinct := by
  unfold DkButtons.distinct; infer_instance

/-- Mask of button `k` for `k = 1..4` (and `none` for any other `k`). -/
def DkButtons.mask (M : DkButtons) : Nat → Option Nat
  | 1 => some M.DK_BTN1_MSK
  | 2 => some M.DK_BTN2_MSK
  | 3 => some M.DK_BTN3_MSK
  | 4 => some M.DK_BTN4_MSK
  | _ => none

/-- Advertising option bits of `bluetooth.h` that `main` combines.  The header
is not part of the sources, so the bit values are parameters. -/
structure AdvOpt where
  BT_LE_ADV_OPT_CONNECTABLE : Nat
  BT_LE_ADV_OPT_FILTER_CONN : Nat
  BT_LE_ADV_OPT_FILTER_SCAN_REQ : Nat
deriving DecidableEq, Repr

/-- Results of the external calls.  Error codes are C `int`s, zero meaning
success.  `bonds` is the bond store that `bt_foreach_bond` walks, and
`bt_le_whitelist_add k` is the result of the call number `k` (counted from 0)
of `bt_le_whitelist_add`, so every pattern of successes and failures is some
`Env`. -/
structure Env where
  dk_buttons_init : Int
  dk_leds_init : Int
  bt_enable : Int
  CONFIG_SETTINGS : Bool
  bt_bms_init : Int
  bonds : List bt_bond_info
  bt_le_whitelist_add : Nat → Int
  bt_le_adv_start : Int
  send_button_notification : Int

/-- Program and world state. -/
structure State where
  /-- The `static uint8_t numberOfbondedDevices`. -/
  numberOfbondedDevices : Nat
  /-- The `static struct bt_conn *current_conn`; NULL is `none`. -/
  current_conn : Option bt_conn
  /-- Value last stored by `set_button_value` (kept in `remote.c`). -/
  button_value : Nat
  /-- Addresses in the controller's whitelist. -/
  whitelist : List bt_addr_le_t
  /-- Whether the connection LED (`CON_STATUS_LED`) is lit. -/
  con_status_led : Bool
  /-- Number of `bt_le_whitelist_add` calls made so far. -/
  whitelist_add_calls : Nat
  /-- External calls made so far, oldest first. -/
  trace : List Call
deriving DecidableEq, Repr

/-- State when `main` is entered: statics zero-initialised, empty whitelist,
LED off, nothing called yet. -/
def boot : State :=
  { numberOfbondedDevices := 0, current_conn := none, button_value := 0,
    whitelist := [], con_status_led := false, whitelist_add_calls := 0, trace := [] }

/-- Record one external call. -/
def State.call (s : State) (c : Call) : State :=
  { s with trace := s.trace ++ [c] }

/-! ## Authorization gate -/

/-- The `static const uint8_t bms_auth_code[] = {'A', 'B', 'C', 'D'}`. -/
def bms_auth_code : List Nat := ['A'.toNat, 'B'.toNat, 'C'.toNat, 'D'.toNat]

/-- C `memcmp` on the `n` bytes starting at offset `i` of both buffers: zero
when they agree, otherwise the difference of the first differing pair. -/
def memcmpFrom (s1 s2 : Nat → Nat) (i : Nat) : Nat → Int
  | 0 => 0
  | n + 1 =>
    if s1 i = s2 i then memcmpFrom s1 s2 (i + 1) n
    else (s1 i : Int) - (s2 i : Int)

/-- C `memcmp(s1, s2, n)`. -/
def memcmp (s1 s2 : Nat → Nat) (n : Nat) : Int := memcmpFrom s1 s2 0 n

/-- An array read through a pointer to its first element. -/
def asBuffer (a : List Nat) : Nat → Nat := fun i => a.getD i 0

/-- The authorization callback `bms_authorize(conn, params)`. -/
def bms_authorize (_conn : bt_conn) (params : bt_bms_authorize_params) : Bool :=
  if params.code_len = bms_auth_code.length ∧
      memcmp (asBuffer bms_auth_code) params.code bms_auth_code.length = 0 then
    true
  else
    false

/-! ## Bond Management Service configuration -/

/-- The local `init_params` of `bms_init` at the point where it is passed to
`bt_bms_init`: zero-initialised (`= {0}`), then assigned field by field in the
order of the source. -/
def bms_init_params : bt_bms_init_params :=
  let init_params : bt_bms_init_params :=
    { features :=
        { delete_requesting := { supported := false, authorize := false },
          delete_rest := { supported := false, authorize := false },
          delete_all := { supported := false, authorize := false } },
      cbs := none }
  let init_params := { init_params with
    features := { init_params.features with
      delete_requesting := { init_params.features.delete_requesting with supported := true } } }
  let init_params := { init_params with
    features := { init_params.features with
      delete_rest := { init_params.features.delete_rest with supported := true } } }
  let init_params := { init_params with
    features := { init_params.features with
      delete_all := { init_params.features.delete_all with supported := true } } }
  let init_params := { init_params with
    features := { init_params.features with
      delete_rest := { init_params.features.delete_rest with authorize := true } } }
  let init_params := { init_params with
    features := { init_params.features with
      delete_all := { init_params.features.delete_all with authorize := true } } }
  { init_params with cbs := some bt_bms_cb.bms_callbacks }

/-- External `bt_bms_init`: the call is recorded with its argument, the
result comes from the environment. -/
def bt_bms_init (E : Env) (s : State) (params : bt_bms_init_params) : State × Int :=
  (s.call (Call.bt_bms_init params), E.bt_bms_init)

/-- The `bms_init` of `main.c`: `return bt_bms_init(&init_params);`. -/
def bms_init (E : Env) (s : State) : State × Int :=
  bt_bms_init E s bms_init_params

/-! ## Notification / input bridge -/

/-- Modelled from the spec: `set_button_value` is defined in `remote.c`, which
is not among the sources; per the spec it "stores the latest value in
process-wide state".  The parameter is a `uint8_t`. -/
def set_button_value (s : State) (btn_value : Nat) : State :=
  { s.call (Call.set_button_value (btn_value % 256)) with button_value := btn_value % 256 }

/-- Modelled from the spec: `send_button_notification` is defined in
`remote.c`, which is not among the sources; per the spec it pushes one
notification "containing that value" over the given connection.  The call is
recorded with its arguments (`value` is a `uint8_t`); its result comes from the
environment. -/
def send_button_notification (E : Env) (s : State) (conn : Option bt_conn) (value : Nat) :
    State × Int :=
  (s.call (Call.send_button_notification conn (value % 256)), E.send_button_notification)

/-- The `button_handler(button_state, has_changed)` of `main.c`.  Both
arguments are `uint32_t` bit masks.  The error of the send is only logged. -/
def button_handler (M : DkButtons) (E : Env) (s : State) (button_state has_changed : Nat) :
    State :=
  let button_pressed : Nat := 0
  if has_changed &&& button_state ≠ 0 then
    let button_pressed : Nat :=
      if has_changed = M.DK_BTN1_MSK then 1
      else if has_changed = M.DK_BTN2_MSK then 2
      else if has_changed = M.DK_BTN3_MSK then 3
      else if has_changed = M.DK_BTN4_MSK then 4
      else button_pressed
    let s := set_button_value s button_pressed
    let (s, _err) := send_button_notification E s s.current_conn button_pressed
    s
  else
    s

/-! ## Connection callbacks -/

/-- External `dk_set_led_on` of the board library. -/
def dk_set_led_on (s : State) (led : Led) : State :=
  let s := s.call (Call.dk_set_led_on led)
  match led with
  | Led.CON_STATUS_LED => { s with con_status_led := true }
  | Led.RUN_STATUS_LED => s

/-- External `dk_set_led_off` of the board library. -/
def dk_set_led_off (s : State) (led : Led) : State :=
  let s := s.call (Call.dk_set_led_off led)
  match led with
  | Led.CON_STATUS_LED => { s with con_status_led := false }
  | Led.RUN_STATUS_LED => s

/-- The `connected(conn, err)` callback: on success keep a new reference to
the connection and switch the connection LED on. -/
def connected (s : State) (conn : bt_conn) (err : Nat) : State :=
  if err ≠ 0 then s
  else
    let s := { s.call (Call.bt_conn_ref conn) with current_conn := some conn }
    dk_set_led_on s Led.CON_STATUS_LED

/-- The `disconnected(conn, reason)` callback: switch the connection LED off
and, when a reference is held, release it and clear `current_conn`. -/
def disconnected (s : State) (_conn : bt_conn) (_reason : Nat) : State :=
  let s := dk_set_led_off s Led.CON_STATUS_LED
  match s.current_conn with
  | some c => { s.call (Call.bt_conn_unref c) with current_conn := none }
  | none => s

/-! ## Bond inventory scanner and advertising policy -/

/-- External `bt_le_whitelist_add`: the call is recorded; when the stack
reports success (0) the address is in the whitelist afterwards, otherwise the
whitelist is unchanged. -/
def bt_le_whitelist_add (E : Env) (s : State) (addr : bt_addr_le_t) : State × Int :=
  let err := E.bt_le_whitelist_add s.whitelist_add_calls
  let s := { s.call (Call.bt_le_whitelist_add addr) with
    whitelist_add_calls := s.whitelist_add_calls + 1 }
  if err = 0 then ({ s with whitelist := s.whitelist ++ [addr] }, err) else (s, err)

/-- The visitor `print_bonded_device_info(info, user_data)`: count the record
in the 8-bit counter and try to add its address to the whitelist; the result
of the add only selects the log line. -/
def print_bonded_device_info (E : Env) (s : State) (info : bt_bond_info) : State :=
  let s := { s with numberOfbondedDevices := (s.numberOfbondedDevices + 1) % 256 }
  let (s, _err) := bt_le_whitelist_add E s info.addr
  s

/-- External `bt_foreach_bond(id, func, user_data)`: calls `func` once for
every record of the bond store, in the store's order. -/
def bt_foreach_bond (E : Env) (s : State) (func : State → bt_bond_info → State) : State :=
  E.bonds.foldl func (s.call Call.bt_foreach_bond)

/-- External `bt_le_adv_start`: the call is recorded with its parameters and
the whitelist held at that moment; the result comes from the environment. -/
def bt_le_adv_start (E : Env) (s : State) (param : bt_le_adv_param) : State × Int :=
  (s.call (Call.bt_le_adv_start param s.whitelist), E.bt_le_adv_start)

/-- External `dk_buttons_init(button_handler)` of the board library. -/
def dk_buttons_init (E : Env) (s : State) : State × Int :=
  (s.call Call.dk_buttons_init, E.dk_buttons_init)

/-- External `dk_leds_init()` of the board library. -/
def dk_leds_init (E : Env) (s : State) : State × Int :=
  (s.call Call.dk_leds_init, E.dk_leds_init)

/-- External `bt_enable(NULL)`. -/
def bt_enable (E : Env) (s : State) : State × Int :=
  (s.call Call.bt_enable, E.bt_enable)

/-- How `main` ends: by `return`, or in its endless blink loop. -/
inductive MainResult where
  | returned
  | idle_loop
deriving DecidableEq, Repr

/-- The `main` of `main.c` up to the point where it either returns or enters
`for (;;)`. -/
def main (O : AdvOpt) (E : Env) (s : State) : State × MainResult :=
  let (s, _err) := dk_buttons_init E s
  -- `if (err) { LOG_ERR(...); }`: the error is logged, there is no return
  let (s, err) := dk_leds_init E s
  if err ≠ 0 then (s, MainResult.returned) else
  let s := s.call Call.bt_conn_cb_register
  let s := s.call Call.bt_conn_auth_cb_register
  let s := s.call Call.ble_cb_custom_init
  let (s, err) := bt_enable E s
  if err ≠ 0 then (s, MainResult.returned) else
  let s := if E.CONFIG_SETTINGS then s.call Call.settings_load else s
  let (s, err) := bms_init E s
  if err ≠ 0 then (s, MainResult.returned) else
  let s := { s with numberOfbondedDevices := 0 }
  let s := bt_foreach_bond E s (print_bonded_device_info E)
  let (s, err) :=
    if s.numberOfbondedDevices = 0 then
      bt_le_adv_start E s bt_le_adv_param.BT_LE_ADV_CONN
    else
      bt_le_adv_start E s
        (bt_le_adv_param.BT_LE_ADV_PARAM
          (O.BT_LE_ADV_OPT_CONNECTABLE ||| O.BT_LE_ADV_OPT_FILTER_CONN |||
            O.BT_LE_ADV_OPT_FILTER_SCAN_REQ)
          160 1600 none)
  if err ≠ 0 then (s, MainResult.returned) else (s, MainResult.idle_loop)

/-! ## Observations on traces -/

/-- Connections released by the calls of a trace, oldest first. -/
def unrefs (t : List Call) : List bt_conn :=
  t.filterMap fun c =>
    match c with
    | Call.bt_conn_unref conn => some conn
    | _ => none

/-- Notifications sent by the calls of a trace, oldest first. -/
def notifications (t : List Call) : List (Option bt_conn × Nat) :=
  t.filterMap fun c =>
    match c with
    | Call.send_button_notification conn v => some (conn, v)
    | _ => none

/-- Whether a call is a `bt_le_adv_start`. -/
def Call.isAdvStart : Call → Bool
  | Call.bt_le_adv_start _ _ => true
  | _ => false

/-- The whitelist-add call that the visitor makes for a record. -/
def addCall (b : bt_bond_info) : Call := Call.bt_le_whitelist_add b.addr

/-- Addresses of the records whose add succeeds, where `ret` gives the
result of each add and the first record's add is call number `k`. -/
def added (ret : Nat → Int) : Nat → List bt_bond_info → List bt_addr_le_t
  | _, [] => []
  | k, b :: bs => if ret k = 0 then b.addr :: added ret (k + 1) bs else added ret (k + 1) bs

/-- Calls of `main` that precede the bond enumeration when every fatal
initialisation step succeeds. -/
def initCalls (E : Env) : List Call :=
  [Call.dk_buttons_init, Call.dk_leds_init, Call.bt_conn_cb_register,
    Call.bt_conn_auth_cb_register, Call.ble_cb_custom_init, Call.bt_enable] ++
  (if E.CONFIG_SETTINGS then [Call.settings_load] else []) ++
  [Call.bt_bms_init bms_init_params]

/-- The parameters of the filtered advertising that `main` starts when the bond
counter is not zero. -/
def filteredParam (O : AdvOpt) : bt_le_adv_param :=
  bt_le_adv_param.BT_LE_ADV_PARAM
    (O.BT_LE_ADV_OPT_CONNECTABLE ||| O.BT_LE_ADV_OPT_FILTER_CONN |||
      O.BT_LE_ADV_OPT_FILTER_SCAN_REQ)
    160 1600 none

/-! ## Concrete inputs used by the examples -/

/-- Option bits as the stack's header defines them: `CONNECTABLE = BIT(0)`,
`FILTER_CONN = BIT(7)`, `FILTER_SCAN_REQ = BIT(6)`. -/
def zephyrOpt : AdvOpt := AdvOpt.mk 1 128 64

/-- Bond record of the peer with the given address value. -/
def bondOf (v : Nat) : bt_bond_info := bt_bond_info.mk (bt_addr_le_t.mk 0 v)

/-- An environment in which every call succeeds, with the given bond store and
whitelist-add results. -/
def envWith (bonds : List bt_bond_info) (ret : Nat → Int) : Env :=
  Env.mk 0 0 0 true 0 bonds ret 0 0

/-- Every step succeeds and the bond store holds 256 different peers. -/
def env256 : Env := envWith ((List.range 256).map bondOf) (fun _ => 0)

/-- One bonded peer, whose whitelist add fails with `-ENOMEM`. -/
def envAddFails : Env := envWith [bondOf 17] (fun _ => -12)

/-- Three bonded peers; the add of the second one fails. -/
def envSecondFails : Env :=
  envWith [bondOf 1, bondOf 2, bondOf 3] (fun k => if k = 1 then -12 else 0)

/-- No bonds, and only `dk_buttons_init` fails (with `-EIO`). -/
def envButtonsFail : Env := Env.mk (-5) 0 0 true 0 [] (fun _ => 0) 0 0

/-- Two bonds, and `bt_enable` fails. -/
def envEnableFails : Env := Env.mk 0 0 (-5) true 0 [bondOf 1, bondOf 2] (fun _ => 0) 0 0

/-- The state without its call log. -/
def State.vars (s : State) : State := { s with trace := [] }

/-! ## Authorization gate: theorems -/

theorem bms_auth_code_bytes : bms_auth_code = [0x41, 0x42, 0x43, 0x44] := by decide

/-- C1: `bms_authorize` returns true exactly when `code_len` is 4 and the
four bytes at `code` are 0x41, 0x42, 0x43, 0x44, whatever the connection; in
every other case (another length, or one of the four bytes differing) it
returns false. -/
theorem bms_authorize_iff (conn : bt_conn) (params : bt_bms_authorize_params) :
    (bms_authorize conn params = true ↔
      params.code_len = 4 ∧ params.code 0 = 0x41 ∧ params.code 1 = 0x42 ∧
        params.code 2 = 0x43 ∧ params.code 3 = 0x44) ∧
    (bms_authorize conn params = false ↔
      params.code_len ≠ 4 ∨ params.code 0 ≠ 0x41 ∨ params.code 1 ≠ 0x42 ∨
        params.code 2 ≠ 0x43 ∨ params.code 3 ≠ 0x44) := by
  have key : bms_authorize conn params = true ↔
      params.code_len = 4 ∧ params.code 0 = 0x41 ∧ params.code 1 = 0x42 ∧
        params.code 2 = 0x43 ∧ params.code 3 = 0x44 := by
    simp only [bms_authorize, bms_auth_code_bytes, memcmp, memcmpFrom, asBuffer,
      List.length_cons, List.length_nil]
    simp only [List.getD_cons_zero, List.getD_cons_succ, Nat.reduceAdd]
    by_cases h0 : params.code 0 = 65
    · by_cases h1 : params.code 1 = 66
      · by_cases h2 : params.code 2 = 67
        · by_cases h3 : params.code 3 = 68
          · simp [h0, h1, h2, h3]
          · have h3n : ¬ (68 = params.code 3) := fun h => h3 h.symm
            simp [h0, h1, h2, h3, h3n]
            omega
        · have h2n : ¬ (67 = params.code 2) := fun h => h2 h.symm
          simp [h0, h1, h2, h2n]
          omega
      · have h1n : ¬ (66 = params.code 1) := fun h => h1 h.symm
        simp [h0, h1, h1n]
        omega
    · have h0n : ¬ (65 = params.code 0) := fun h => h0 h.symm
      simp [h0, h0n]
      omega
  refine ⟨key, ?_⟩
  rw [← Bool.not_eq_true, key]
  omega

/-! ## Bond Management Service configuration: theorems -/

/-- C7: the configuration `bms_init` hands to `bt_bms_init` supports all three
operations, requires authorization for delete-rest and delete-all, requires
none for delete-requesting, and registers `bms_callbacks`; `bms_init` makes
that one call and returns its result. -/
theorem bms_init_config (E : Env) (s : State) :
    ∃ p : bt_bms_init_params,
      (bms_init E s).1.trace = s.trace ++ [Call.bt_bms_init p] ∧
      (bms_init E s).2 = E.bt_bms_init ∧
      p.features.delete_requesting.supported = true ∧
      p.features.delete_rest.supported = true ∧
      p.features.delete_all.supported = true ∧
      p.features.delete_requesting.authorize = false ∧
      p.features.delete_rest.authorize = true ∧
      p.features.delete_all.authorize = true ∧
      p.cbs = some bt_bms_cb.bms_callbacks :=
  ⟨bms_init_params, rfl, rfl, rfl, rfl, rfl, rfl, rfl, rfl, rfl⟩

/-! ## Connection teardown: theorems -/

/-- C6: after one `disconnected` the stored reference is NULL and the
reference that was held, if any, has been released exactly once; a second
`disconnected` releases nothing and leaves every variable as the first call
left it (it only repeats the LED-off call). -/
theorem disconnected_twice (s : State) (conn conn2 : bt_conn) (reason reason2 : Nat) :
    (disconnected s conn reason).current_conn = none ∧
    unrefs (disconnected s conn reason).trace = unrefs s.trace ++ s.current_conn.toList ∧
    (disconnected (disconnected s conn reason) conn2 reason2).current_conn = none ∧
    (disconnected (disconnected s conn reason) conn2 reason2).vars =
      (disconnected s conn reason).vars ∧
    (disconnected (disconnected s conn reason) conn2 reason2).trace =
      (disconnected s conn reason).trace ++ [Call.dk_set_led_off Led.CON_STATUS_LED] ∧
    unrefs (disconnected (disconnected s conn reason) conn2 reason2).trace =
      unrefs (disconnected s conn reason).trace := by
  cases h : s.current_conn <;>
    simp [disconnected, dk_set_led_off, State.call, State.vars, unrefs, h]

/-- Example for C6: a connection is established and then torn down twice; the
reference taken by `connected` is released exactly once, by the first call. -/
theorem disconnected_twice_witness :
    unrefs (disconnected (connected boot 7 0) 7 19).trace = [7] ∧
    unrefs (disconnected (disconnected (connected boot 7 0) 7 19) 7 19).trace = [7] ∧
    (disconnected (disconnected (connected boot 7 0) 7 19) 7 19).current_conn = none :=
  ⟨(disconnected_twice (connected boot 7 0) 7 7 19 19).2.1,
    (disconnected_twice (connected boot 7 0) 7 7 19 19).2.2.2.2.2.trans
      (disconnected_twice (connected boot 7 0) 7 7 19 19).2.1,
    (disconnected_twice (connected boot 7 0) 7 7 19 19).2.2.1⟩

/-! ## Notification / input bridge: theorems -/

theorem button_handler_pressed (M : DkButtons) (E : Env) (s : State)
    (button_state has_changed v : Nat) (hp : has_changed &&& button_state ≠ 0)
    (hv : (if has_changed = M.DK_BTN1_MSK then 1
      else if has_changed = M.DK_BTN2_MSK then 2
      else if has_changed = M.DK_BTN3_MSK then 3
      else if has_changed = M.DK_BTN4_MSK then 4
      else 0) = v) (hlt : v < 256) :
    button_handler M E s button_state has_changed =
      { s with
        button_value := v
        trace := s.trace ++
          [Call.set_button_value v, Call.send_button_notification s.current_conn v] } := by
  simp only [button_handler, hp, hv, if_true, ne_eq, not_false_eq_true, set_button_value,
    send_button_notification, State.call, Nat.mod_eq_of_lt hlt, List.append_assoc,
    List.singleton_append]

theorem button_handler_idle (M : DkButtons) (E : Env) (s : State)
    (button_state has_changed : Nat) (hp : has_changed &&& button_state = 0) :
    button_handler M E s button_state has_changed = s := by
  simp [button_handler, hp]

/-- C4: on a press edge of exactly one button `k` of 1..4 (`has_changed` is
the mask of button `k` and that bit is set in `button_state`),
`button_handler` calls `set_button_value(k)`, which stores `k`, and then
`send_button_notification(current_conn, k)` once, and does nothing else; `k`
is fixed by `has_changed` alone. -/
theorem button_handler_single_press (M : DkButtons) (hM : M.distinct) (E : Env) (s : State)
    (k button_state has_changed : Nat) (hk : M.mask k = some has_changed)
    (hp : has_changed &&& button_state ≠ 0) :
    1 ≤ k ∧ k ≤ 4 ∧
    button_handler M E s button_state has_changed =
      { s with
        button_value := k
        trace := s.trace ++
          [Call.set_button_value k, Call.send_button_notification s.current_conn k] } ∧
    (button_handler M E s button_state has_changed).button_value = k ∧
    notifications (button_handler M E s button_state has_changed).trace =
      notifications s.trace ++ [(s.current_conn, k)] := by
  have hd : M.DK_BTN1_MSK ≠ M.DK_BTN2_MSK ∧ M.DK_BTN1_MSK ≠ M.DK_BTN3_MSK ∧
      M.DK_BTN1_MSK ≠ M.DK_BTN4_MSK ∧ M.DK_BTN2_MSK ≠ M.DK_BTN3_MSK ∧
      M.DK_BTN2_MSK ≠ M.DK_BTN4_MSK ∧ M.DK_BTN3_MSK ≠ M.DK_BTN4_MSK := by
    have := hM
    simp only [DkButtons.distinct, DkButtons.masks, List.nodup_cons, List.mem_cons,
      List.mem_singleton,
      not_or, List.not_mem_nil, not_false_eq_true, List.nodup_nil, and_true] at this
    tauto
  obtain ⟨h12, h13, h14, h23, h24, h34⟩ := hd
  have hkv : 1 ≤ k ∧ k ≤ 4 ∧ (if has_changed = M.DK_BTN1_MSK then 1
      else if has_changed = M.DK_BTN2_MSK then 2
      else if has_changed = M.DK_BTN3_MSK then 3
      else if has_changed = M.DK_BTN4_MSK then 4
      else 0) = k := by
    unfold DkButtons.mask at hk
    split at hk
    · cases hk; simp
    · cases hk; simp [Ne.symm h12]
    · cases hk; simp [Ne.symm h13, Ne.symm h23]
    · cases hk; simp [Ne.symm h14, Ne.symm h24, Ne.symm h34]
    · cases hk
  obtain ⟨h1, h4, hv⟩ := hkv
  have hb := button_handler_pressed M E s button_state has_changed k hp hv (by omega)
  refine ⟨h1, h4, hb, ?_, ?_⟩
  · rw [hb]
  · rw [hb]
    simp [notifications, List.filterMap_append]

/-- Witness of C4: button 3 of a board whose masks are bits 0..3, pressed
while buttons 1 and 3 are down. -/
theorem button_handler_single_press_witness :
    (DkButtons.mk 1 2 4 8).distinct ∧ (DkButtons.mk 1 2 4 8).mask 3 = some 4 ∧
    4 &&& 5 ≠ 0 ∧
    (button_handler (DkButtons.mk 1 2 4 8) (Env.mk 0 0 0 true 0 [] (fun _ => 0) 0 0)
      { boot with current_conn := some 7 } 5 4).trace =
      [Call.set_button_value 3, Call.send_button_notification (some 7) 3] :=
  ⟨by decide, rfl, by decide, by
    have h := (button_handler_single_press (DkButtons.mk 1 2 4 8) (by decide)
      (Env.mk 0 0 0 true 0 [] (fun _ => 0) 0 0) { boot with current_conn := some 7 }
      3 5 4 rfl (by decide)).2.2.1
    rw [h]; rfl⟩

/-- Counterexample to C5 as stated: with masks bit 0..3, buttons 1 and 2
change and are both down in one event (`has_changed = button_state = 3`, the
mask of no single button).  The stored value 2 is overwritten with 0 and a
notification carrying 0 is sent. -/
theorem button_handler_unmapped_counterexample :
    3 ∉ (DkButtons.mk 1 2 4 8).masks ∧
    ({ boot with button_value := 2, current_conn := some 7 } : State).button_value = 2 ∧
    (button_handler (DkButtons.mk 1 2 4 8) (Env.mk 0 0 0 true 0 [] (fun _ => 0) 0 0)
      { boot with button_value := 2, current_conn := some 7 } 3 3).button_value = 0 ∧
    notifications (button_handler (DkButtons.mk 1 2 4 8)
      (Env.mk 0 0 0 true 0 [] (fun _ => 0) 0 0)
      { boot with button_value := 2, current_conn := some 7 } 3 3).trace = [(some 7, 0)] := by
  refine ⟨by decide, rfl, rfl, rfl⟩

/-- C5 (amended): when `has_changed` is the mask of none of the four buttons,
no index is assigned (it stays 0).  If no changed button is down
(`has_changed & button_state == 0`) nothing is called and the state, the
stored value included, is as before.  If some changed button is down,
`set_button_value(0)` stores 0 and `send_button_notification(current_conn, 0)`
sends one notification carrying 0. -/
theorem button_handler_unmapped (M : DkButtons) (E : Env) (s : State)
    (button_state has_changed : Nat) (hu : has_changed ∉ M.masks) :
    (has_changed &&& button_state = 0 →
      button_handler M E s button_state has_changed = s) ∧
    (has_changed &&& button_state ≠ 0 →
      button_handler M E s button_state has_changed =
        { s with
          button_value := 0
          trace := s.trace ++
            [Call.set_button_value 0, Call.send_button_notification s.current_conn 0] } ∧
      notifications (button_handler M E s button_state has_changed).trace =
        notifications s.trace ++ [(s.current_conn, 0)]) := by
  simp only [DkButtons.masks, List.mem_cons, List.mem_singleton, not_or, List.not_mem_nil,
    or_false] at hu
  obtain ⟨h1, h2, h3, h4⟩ := hu
  refine ⟨button_handler_idle M E s button_state has_changed, fun hp => ?_⟩
  have hb := button_handler_pressed M E s button_state has_changed 0 hp
    (by simp [h1, h2, h3, h4]) (by decide)
  refine ⟨hb, ?_⟩
  rw [hb]
  simp [notifications, List.filterMap_append]

/-- Witness of C5 (amended): buttons 1 and 2 change together; once with both
released, once with both down. -/
theorem button_handler_unmapped_witness :
    3 ∉ (DkButtons.mk 1 2 4 8).masks ∧
    button_handler (DkButtons.mk 1 2 4 8) (Env.mk 0 0 0 true 0 [] (fun _ => 0) 0 0)
      { boot with button_value := 2 } 0 3 = { boot with button_value := 2 } ∧
    notifications (button_handler (DkButtons.mk 1 2 4 8)
      (Env.mk 0 0 0 true 0 [] (fun _ => 0) 0 0)
      { boot with button_value := 2 } 3 3).trace = [(none, 0)] :=
  ⟨by decide,
    (button_handler_unmapped (DkButtons.mk 1 2 4 8) (Env.mk 0 0 0 true 0 [] (fun _ => 0) 0 0)
      { boot with button_value := 2 } 0 3 (by decide)).1 (by decide),
    ((button_handler_unmapped (DkButtons.mk 1 2 4 8) (Env.mk 0 0 0 true 0 [] (fun _ => 0) 0 0)
      { boot with button_value := 2 } 3 3 (by decide)).2 (by decide)).2⟩

/-! ## Bond inventory scanner: lemmas -/

theorem mem_added (ret : Nat → Int) (a : bt_addr_le_t) (bonds : List bt_bond_info) :
    ∀ k, a ∈ added ret k bonds ↔
      ∃ i b, bonds[i]? = some b ∧ b.addr = a ∧ ret (k + i) = 0 := by
  induction bonds with
  | nil => intro k; simp [added]
  | cons b bs ih =>
    intro k
    have hstep : (∃ i c, (b :: bs)[i]? = some c ∧ c.addr = a ∧ ret (k + i) = 0) ↔
        (b.addr = a ∧ ret k = 0) ∨
          ∃ i c, bs[i]? = some c ∧ c.addr = a ∧ ret (k + 1 + i) = 0 := by
      constructor
      · rintro ⟨i, c, hc, ha, hr⟩
        cases i with
        | zero =>
          simp only [List.getElem?_cons_zero, Option.some.injEq] at hc
          subst hc
          exact Or.inl ⟨ha, by simpa using hr⟩
        | succ j =>
          simp only [List.getElem?_cons_succ] at hc
          exact Or.inr ⟨j, c, hc, ha, by rw [← hr]; congr 1; omega⟩
      · rintro (⟨ha, hr⟩ | ⟨i, c, hc, ha, hr⟩)
        · exact ⟨0, b, by simp, ha, by simpa using hr⟩
        · exact ⟨i + 1, c, by simpa using hc, ha, by rw [← hr]; congr 1; omega⟩
    rw [hstep, ← ih (k + 1)]
    by_cases hr : ret k = 0
    · simp [added, hr, eq_comm]
    · simp [added, hr]

theorem added_all (ret : Nat → Int) (bonds : List bt_bond_info) :
    ∀ k, (∀ i, i < bonds.length → ret (k + i) = 0) →
      added ret k bonds = bonds.map (fun b => b.addr) := by
  induction bonds with
  | nil => intro k _; rfl
  | cons b bs ih =>
    intro k h
    have h0 : ret k = 0 := by simpa using h 0 (by simp)
    have ht : ∀ i, i < bs.length → ret (k + 1 + i) = 0 := by
      intro i hi
      have := h (i + 1) (by simpa using hi)
      rw [← this]; congr 1; omega
    simp [added, h0, ih (k + 1) ht]

theorem visit_all (E : Env) (bonds : List bt_bond_info) :
    ∀ s : State, s.numberOfbondedDevices < 256 →
      bonds.foldl (print_bonded_device_info E) s =
        { s with
          numberOfbondedDevices := (s.numberOfbondedDevices + bonds.length) % 256
          whitelist := s.whitelist ++ added E.bt_le_whitelist_add s.whitelist_add_calls bonds
          whitelist_add_calls := s.whitelist_add_calls + bonds.length
          trace := s.trace ++ bonds.map addCall } := by
  induction bonds with
  | nil =>
    intro s hs
    simp [added, Nat.mod_eq_of_lt hs]
  | cons b bs ih =>
    intro s _
    rw [List.foldl_cons, ih _ (by
      simp only [print_bonded_device_info, bt_le_whitelist_add, State.call]
      split <;> exact Nat.mod_lt _ (by decide))]
    have hn : ((s.numberOfbondedDevices + 1) % 256 + bs.length) % 256 =
        (s.numberOfbondedDevices + (bs.length + 1)) % 256 := by omega
    by_cases hr : E.bt_le_whitelist_add s.whitelist_add_calls = 0
    · simp [print_bonded_device_info, bt_le_whitelist_add, State.call, added, hr, hn,
        addCall, Nat.add_assoc, Nat.add_comm 1]
    · simp [print_bonded_device_info, bt_le_whitelist_add, State.call, added, hr, hn,
        addCall, Nat.add_assoc, Nat.add_comm 1]

theorem foreach_bond_eq (E : Env) (s : State) (hs : s.numberOfbondedDevices < 256) :
    bt_foreach_bond E s (print_bonded_device_info E) =
      { s with
        numberOfbondedDevices := (s.numberOfbondedDevices + E.bonds.length) % 256
        whitelist := s.whitelist ++ added E.bt_le_whitelist_add s.whitelist_add_calls E.bonds
        whitelist_add_calls := s.whitelist_add_calls + E.bonds.length
        trace := s.trace ++ Call.bt_foreach_bond :: E.bonds.map addCall } := by
  rw [bt_foreach_bond, visit_all E E.bonds _ (by simpa [State.call] using hs)]
  simp [State.call]

/-! ## Boot sequence: lemmas -/

theorem main_abort_leds (O : AdvOpt) (E : Env) (s : State) (h : E.dk_leds_init ≠ 0) :
    main O E s =
      ({ s with trace := s.trace ++ [Call.dk_buttons_init, Call.dk_leds_init] },
        MainResult.returned) := by
  simp [main, dk_buttons_init, dk_leds_init, h, State.call]

theorem main_abort_enable (O : AdvOpt) (E : Env) (s : State) (h1 : E.dk_leds_init = 0)
    (h : E.bt_enable ≠ 0) :
    main O E s =
      ({ s with trace := s.trace ++ [Call.dk_buttons_init, Call.dk_leds_init,
          Call.bt_conn_cb_register, Call.bt_conn_auth_cb_register, Call.ble_cb_custom_init,
          Call.bt_enable] },
        MainResult.returned) := by
  simp [main, dk_buttons_init, dk_leds_init, bt_enable, h1, h, State.call]

theorem main_abort_bms (O : AdvOpt) (E : Env) (s : State) (h1 : E.dk_leds_init = 0)
    (h2 : E.bt_enable = 0) (h : E.bt_bms_init ≠ 0) :
    main O E s =
      ({ s with trace := s.trace ++ initCalls E }, MainResult.returned) := by
  cases hc : E.CONFIG_SETTINGS <;>
    simp [main, dk_buttons_init, dk_leds_init, bt_enable, h1, h2, h, State.call, bms_init,
      bt_bms_init, initCalls, hc]

theorem main_ok (O : AdvOpt) (E : Env) (s : State) (h1 : E.dk_leds_init = 0)
    (h2 : E.bt_enable = 0) (h3 : E.bt_bms_init = 0) :
    main O E s =
      ({ s with
          numberOfbondedDevices := E.bonds.length % 256
          whitelist := s.whitelist ++ added E.bt_le_whitelist_add s.whitelist_add_calls E.bonds
          whitelist_add_calls := s.whitelist_add_calls + E.bonds.length
          trace := s.trace ++ initCalls E ++ Call.bt_foreach_bond :: E.bonds.map addCall ++
            [Call.bt_le_adv_start
              (if E.bonds.length % 256 = 0 then bt_le_adv_param.BT_LE_ADV_CONN
                else filteredParam O)
              (s.whitelist ++ added E.bt_le_whitelist_add s.whitelist_add_calls E.bonds)] },
        if E.bt_le_adv_start ≠ 0 then MainResult.returned else MainResult.idle_loop) := by
  simp only [main, dk_buttons_init, dk_leds_init, bt_enable, h1, h2, h3, bms_init,
    bt_bms_init, ne_eq, not_true_eq_false, if_false]
  rw [foreach_bond_eq]
  · by_cases hn : E.bonds.length % 256 = 0 <;> cases hc : E.CONFIG_SETTINGS <;>
      by_cases ha : E.bt_le_adv_start = 0 <;>
      simp [bt_le_adv_start, State.call, initCalls, filteredParam, hn, hc, ha]
  · exact Nat.zero_lt_succ 255

theorem filter_addCall (bonds : List bt_bond_info) :
    (bonds.map addCall).filter Call.isAdvStart = [] := by
  induction bonds with
  | nil => rfl
  | cons b bs _ => simp [addCall, Call.isAdvStart]

theorem filter_initCalls (E : Env) : (initCalls E).filter Call.isAdvStart = [] := by
  cases hc : E.CONFIG_SETTINGS <;> simp [initCalls, hc, Call.isAdvStart]

theorem main_ok_advStarts (O : AdvOpt) (E : Env) (h1 : E.dk_leds_init = 0)
    (h2 : E.bt_enable = 0) (h3 : E.bt_bms_init = 0) :
    (main O E boot).1.trace.filter Call.isAdvStart =
      [Call.bt_le_adv_start
        (if E.bonds.length % 256 = 0 then bt_le_adv_param.BT_LE_ADV_CONN else filteredParam O)
        (added E.bt_le_whitelist_add 0 E.bonds)] := by
  rw [main_ok O E boot h1 h2 h3]
  simp [boot, List.filter_append, List.filter_cons, filter_initCalls, filter_addCall,
    Call.isAdvStart]

/-! ## Bond inventory scanner: theorems -/

/-- C9: each visit of `print_bonded_device_info` increments the 8-bit bond
counter once and makes one `bt_le_whitelist_add` call, whatever that call
returns.  Over a whole enumeration the counter has therefore advanced once per
record, the add was attempted once for every record in order, regardless of
earlier failures, and every address whose add succeeded is in the whitelist. -/
theorem foreach_bond_best_effort (E : Env) (s : State)
    (hs : s.numberOfbondedDevices < 256) :
    (∀ (t : State) (info : bt_bond_info),
      (print_bonded_device_info E t info).numberOfbondedDevices =
        (t.numberOfbondedDevices + 1) % 256 ∧
      (print_bonded_device_info E t info).trace = t.trace ++ [addCall info]) ∧
    (bt_foreach_bond E s (print_bonded_device_info E)).numberOfbondedDevices =
      (s.numberOfbondedDevices + E.bonds.length) % 256 ∧
    (bt_foreach_bond E s (print_bonded_device_info E)).trace =
      s.trace ++ Call.bt_foreach_bond :: E.bonds.map addCall ∧
    (bt_foreach_bond E s (print_bonded_device_info E)).whitelist_add_calls =
      s.whitelist_add_calls + E.bonds.length ∧
    (∀ (i : Nat) (b : bt_bond_info), E.bonds[i]? = some b →
      E.bt_le_whitelist_add (s.whitelist_add_calls + i) = 0 →
      b.addr ∈ (bt_foreach_bond E s (print_bonded_device_info E)).whitelist) := by
  refine ⟨fun t info => ?_, ?_⟩
  · by_cases hr : E.bt_le_whitelist_add t.whitelist_add_calls = 0 <;>
      simp [print_bonded_device_info, bt_le_whitelist_add, State.call, addCall, hr]
  · rw [foreach_bond_eq E s hs]
    refine ⟨rfl, rfl, rfl, fun i b hb hr => ?_⟩
    exact List.mem_append_right _
      ((mem_added E.bt_le_whitelist_add b.addr E.bonds s.whitelist_add_calls).2
        ⟨i, b, hb, rfl, hr⟩)

/-- Witness of C9: three records, the add of the second one fails; the counter
reaches 3, three adds are attempted and the first and third address are in the
whitelist. -/
theorem foreach_bond_best_effort_witness :
    boot.numberOfbondedDevices < 256 ∧
    (bt_foreach_bond envSecondFails boot
      (print_bonded_device_info envSecondFails)).numberOfbondedDevices = 3 ∧
    (bt_foreach_bond envSecondFails boot (print_bonded_device_info envSecondFails)).trace =
      [Call.bt_foreach_bond, addCall (bondOf 1), addCall (bondOf 2), addCall (bondOf 3)] ∧
    (bondOf 3).addr ∈
      (bt_foreach_bond envSecondFails boot (print_bonded_device_info envSecondFails)).whitelist :=
  ⟨by decide,
    (foreach_bond_best_effort envSecondFails boot (by decide)).2.1,
    (foreach_bond_best_effort envSecondFails boot (by decide)).2.2.1,
    (foreach_bond_best_effort envSecondFails boot (by decide)).2.2.2.2 2 (bondOf 3) rfl
      (by decide)⟩

/-! ## Advertising policy: theorems -/

/-- Counterexample to C2 as stated: with 256 bond records, each visited and
counted once, the 8-bit counter is back at 0 after the enumeration and `main`
starts unfiltered advertising with `BT_LE_ADV_CONN`, although N >= 1 and the
whitelist holds all 256 addresses. -/
theorem main_adv_policy_counterexample :
    env256.bonds.length = 256 ∧
    (main zephyrOpt env256 boot).1.numberOfbondedDevices = 0 ∧
    (main zephyrOpt env256 boot).1.trace.filter Call.isAdvStart =
      [Call.bt_le_adv_start bt_le_adv_param.BT_LE_ADV_CONN
        (env256.bonds.map (fun b => b.addr))] := by
  have hlen : env256.bonds.length = 256 := by simp [env256, envWith]
  refine ⟨hlen, ?_, ?_⟩
  · rw [main_ok zephyrOpt env256 boot rfl rfl rfl, hlen]
  · rw [main_ok_advStarts zephyrOpt env256 rfl rfl rfl, hlen,
      added_all env256.bt_le_whitelist_add env256.bonds 0 (fun _ _ => rfl)]
    rfl

/-- C2 (amended): for every bond-inventory size N from 0 to 255, the range in
which the 8-bit counter equals N, `main` (its fatal initialisation steps having
succeeded) makes exactly one advertising start call: with `BT_LE_ADV_CONN` if
N == 0, and with options CONNECTABLE | FILTER_CONN | FILTER_SCAN_REQ if
N >= 1. -/
theorem main_adv_policy (O : AdvOpt) (E : Env) (h1 : E.dk_leds_init = 0)
    (h2 : E.bt_enable = 0) (h3 : E.bt_bms_init = 0) (hN : E.bonds.length < 256) :
    (main O E boot).1.numberOfbondedDevices = E.bonds.length ∧
    (E.bonds.length = 0 →
      ∃ wl, (main O E boot).1.trace.filter Call.isAdvStart =
        [Call.bt_le_adv_start bt_le_adv_param.BT_LE_ADV_CONN wl]) ∧
    (1 ≤ E.bonds.length →
      ∃ wl, (main O E boot).1.trace.filter Call.isAdvStart =
        [Call.bt_le_adv_start
          (bt_le_adv_param.BT_LE_ADV_PARAM
            (O.BT_LE_ADV_OPT_CONNECTABLE ||| O.BT_LE_ADV_OPT_FILTER_CONN |||
              O.BT_LE_ADV_OPT_FILTER_SCAN_REQ)
            160 1600 none) wl]) := by
  have hmod : E.bonds.length % 256 = E.bonds.length := Nat.mod_eq_of_lt hN
  refine ⟨?_, fun h0 => ?_, fun hpos => ?_⟩
  · rw [main_ok O E boot h1 h2 h3]
    exact hmod
  · refine ⟨added E.bt_le_whitelist_add 0 E.bonds, ?_⟩
    rw [main_ok_advStarts O E h1 h2 h3, if_pos (by omega)]
  · refine ⟨added E.bt_le_whitelist_add 0 E.bonds, ?_⟩
    rw [main_ok_advStarts O E h1 h2 h3, if_neg (by omega)]
    rfl

/-- Witness of C2 (amended): three bonds, filtered advertising. -/
theorem main_adv_policy_witness :
    envSecondFails.bonds.length < 256 ∧
    (main zephyrOpt envSecondFails boot).1.numberOfbondedDevices = 3 ∧
    ∃ wl, (main zephyrOpt envSecondFails boot).1.trace.filter Call.isAdvStart =
      [Call.bt_le_adv_start (bt_le_adv_param.BT_LE_ADV_PARAM 193 160 1600 none) wl] :=
  ⟨by decide,
    (main_adv_policy zephyrOpt envSecondFails rfl rfl rfl (by decide)).1,
    (main_adv_policy zephyrOpt envSecondFails rfl rfl rfl (by decide)).2.2 (by decide)⟩

/-- Counterexample to C3 as stated: one bonded peer whose whitelist add fails.
The counter is 1, so `main` starts filtered advertising, and the whitelist is
empty at that moment: the bonded address is not in it. -/
theorem main_whitelist_counterexample :
    envAddFails.bonds.length = 1 ∧
    (bondOf 17).addr ∈ envAddFails.bonds.map (fun b => b.addr) ∧
    (main zephyrOpt envAddFails boot).1.trace.filter Call.isAdvStart =
      [Call.bt_le_adv_start (bt_le_adv_param.BT_LE_ADV_PARAM 193 160 1600 none) []] ∧
    (bondOf 17).addr ∉ ([] : List bt_addr_le_t) := by
  refine ⟨rfl, by decide, ?_, by simp⟩
  rw [main_ok_advStarts zephyrOpt envAddFails rfl rfl rfl]
  rfl

/-- C3 (amended): whenever `main` issues the filtered advertising start (the
counter is not zero after the enumeration), all N whitelist adds have been
attempted before it, and the whitelist at that moment holds exactly the bonded
addresses whose `bt_le_whitelist_add` returned 0 and nothing else: all N
bonded addresses when every add succeeded. -/
theorem main_whitelist_at_adv_start (O : AdvOpt) (E : Env) (h1 : E.dk_leds_init = 0)
    (h2 : E.bt_enable = 0) (h3 : E.bt_bms_init = 0) (hN : E.bonds.length % 256 ≠ 0) :
    ∃ pre wl,
      (main O E boot).1.trace =
        pre ++ E.bonds.map addCall ++
          [Call.bt_le_adv_start
            (bt_le_adv_param.BT_LE_ADV_PARAM
              (O.BT_LE_ADV_OPT_CONNECTABLE ||| O.BT_LE_ADV_OPT_FILTER_CONN |||
                O.BT_LE_ADV_OPT_FILTER_SCAN_REQ)
              160 1600 none) wl] ∧
      pre.filter Call.isAdvStart = [] ∧
      (main O E boot).1.whitelist = wl ∧
      (∀ a, a ∈ wl ↔
        ∃ i b, E.bonds[i]? = some b ∧ b.addr = a ∧ E.bt_le_whitelist_add i = 0) ∧
      ((∀ i, i < E.bonds.length → E.bt_le_whitelist_add i = 0) →
        wl = E.bonds.map (fun b => b.addr)) := by
  refine ⟨initCalls E ++ [Call.bt_foreach_bond], added E.bt_le_whitelist_add 0 E.bonds,
    ?_, ?_, ?_, fun a => ?_, fun hall => ?_⟩
  · rw [main_ok O E boot h1 h2 h3, if_neg hN]
    simp [boot, filteredParam]
  · simp [List.filter_append, filter_initCalls, Call.isAdvStart]
  · rw [main_ok O E boot h1 h2 h3]
    simp [boot]
  · simpa using mem_added E.bt_le_whitelist_add a E.bonds 0
  · exact added_all E.bt_le_whitelist_add E.bonds 0 (by simpa using hall)

/-- Witness of C3 (amended): three bonds, the second add fails; the whitelist
at the filtered start holds the first and the third address. -/
theorem main_whitelist_at_adv_start_witness :
    envSecondFails.bonds.length % 256 ≠ 0 ∧
    ∃ pre wl,
      (main zephyrOpt envSecondFails boot).1.trace =
        pre ++ envSecondFails.bonds.map addCall ++
          [Call.bt_le_adv_start (bt_le_adv_param.BT_LE_ADV_PARAM 193 160 1600 none) wl] ∧
      (bondOf 1).addr ∈ wl ∧ (bondOf 2).addr ∉ wl ∧ (bondOf 3).addr ∈ wl := by
  refine ⟨by decide, ?_⟩
  obtain ⟨pre, wl, ht, _, _, hmem, _⟩ :=
    main_whitelist_at_adv_start zephyrOpt envSecondFails rfl rfl rfl (by decide)
  refine ⟨pre, wl, ht, (hmem _).2 ⟨0, bondOf 1, rfl, rfl, by decide⟩, ?_,
    (hmem _).2 ⟨2, bondOf 3, rfl, rfl, by decide⟩⟩
  intro h
  obtain ⟨i, b, hb, ha, hr⟩ := (hmem _).1 h
  have hi : i = 1 := by
    by_contra hne
    have : i = 0 ∨ i = 2 ∨ 3 ≤ i := by omega
    rcases this with rfl | rfl | h3
    · simp [envSecondFails, envWith, bondOf] at hb ha
      subst hb
      simp at ha
    · simp [envSecondFails, envWith, bondOf] at hb ha
      subst hb
      simp at ha
    · have hlen : envSecondFails.bonds.length = 3 := rfl
      have : envSecondFails.bonds[i]? = none := List.getElem?_eq_none (by omega)
      rw [this] at hb
      cases hb
  subst hi
  revert hr
  decide

/-- C10: when the bond counter is not zero after the enumeration, the one
advertising start call of `main` carries `BT_LE_ADV_PARAM` with options
exactly CONNECTABLE | FILTER_CONN | FILTER_SCAN_REQ, minimum interval 160 and
maximum interval 1600 (units of 0.625 ms = 5/8 ms, that is exactly 100 ms and
1000 ms, minimum not above maximum) and no peer address. -/
theorem main_filtered_adv_params (O : AdvOpt) (E : Env) (h1 : E.dk_leds_init = 0)
    (h2 : E.bt_enable = 0) (h3 : E.bt_bms_init = 0) (hN : E.bonds.length % 256 ≠ 0) :
    (main O E boot).1.numberOfbondedDevices ≠ 0 ∧
    ∃ options int_min int_max peer wl,
      (main O E boot).1.trace.filter Call.isAdvStart =
        [Call.bt_le_adv_start
          (bt_le_adv_param.BT_LE_ADV_PARAM options int_min int_max peer) wl] ∧
      options = O.BT_LE_ADV_OPT_CONNECTABLE ||| O.BT_LE_ADV_OPT_FILTER_CONN |||
        O.BT_LE_ADV_OPT_FILTER_SCAN_REQ ∧
      int_min = 160 ∧ int_max = 1600 ∧ peer = none ∧
      int_min * 5 / 8 = 100 ∧ int_min * 5 % 8 = 0 ∧
      int_max * 5 / 8 = 1000 ∧ int_max * 5 % 8 = 0 ∧
      int_min ≤ int_max := by
  refine ⟨?_, _, 160, 1600, none, added E.bt_le_whitelist_add 0 E.bonds, ?_, rfl, rfl, rfl,
    rfl, by decide, by decide, by decide, by decide, by decide⟩
  · rw [main_ok O E boot h1 h2 h3]
    exact hN
  · rw [main_ok_advStarts O E h1 h2 h3, if_neg hN]
    rfl

/-- Witness of C10: three bonds and the stack's option bits; the options
value is 1 | 128 | 64 = 193. -/
theorem main_filtered_adv_params_witness :
    envSecondFails.bonds.length % 256 ≠ 0 ∧
    (main zephyrOpt envSecondFails boot).1.numberOfbondedDevices ≠ 0 ∧
    (main zephyrOpt envSecondFails boot).1.trace.filter Call.isAdvStart =
      [Call.bt_le_adv_start (bt_le_adv_param.BT_LE_ADV_PARAM 193 160 1600 none)
        [(bondOf 1).addr, (bondOf 3).addr]] :=
  ⟨by decide,
    (main_filtered_adv_params zephyrOpt envSecondFails rfl rfl rfl (by decide)).1,
    by decide⟩

/-! ## Boot sequence: theorems -/

/-- The sibling steps of the button driver init: if the LED driver init,
`bt_enable` or `bms_init` returns a non-zero error, `main` returns without
enumerating bonds, without touching the whitelist and without calling
`bt_le_adv_start`. -/
theorem main_fatal_init_aborts (O : AdvOpt) (E : Env)
    (h : E.dk_leds_init ≠ 0 ∨ E.bt_enable ≠ 0 ∨ E.bt_bms_init ≠ 0) :
    (main O E boot).2 = MainResult.returned ∧
    Call.bt_foreach_bond ∉ (main O E boot).1.trace ∧
    (∀ a, Call.bt_le_whitelist_add a ∉ (main O E boot).1.trace) ∧
    (main O E boot).1.whitelist = [] ∧
    (main O E boot).1.trace.filter Call.isAdvStart = [] := by
  by_cases h1 : E.dk_leds_init = 0
  · by_cases h2 : E.bt_enable = 0
    · have h3 : E.bt_bms_init ≠ 0 := by tauto
      rw [main_abort_bms O E boot h1 h2 h3]
      cases hc : E.CONFIG_SETTINGS <;> simp [boot, initCalls, hc, Call.isAdvStart]
    · rw [main_abort_enable O E boot h1 h2]
      simp [boot, Call.isAdvStart]
  · rw [main_abort_leds O E boot h1]
    simp [boot, Call.isAdvStart]

/-- Example of the sibling steps: `bt_enable` fails with two bonds stored;
`main` returns after six calls, none of them an enumeration or an advertising
start. -/
theorem main_fatal_init_aborts_witness :
    envEnableFails.bt_enable ≠ 0 ∧
    (main zephyrOpt envEnableFails boot).2 = MainResult.returned ∧
    Call.bt_foreach_bond ∉ (main zephyrOpt envEnableFails boot).1.trace ∧
    (main zephyrOpt envEnableFails boot).1.trace.filter Call.isAdvStart = [] ∧
    (main zephyrOpt envEnableFails boot).1.trace.length = 6 :=
  ⟨by decide,
    (main_fatal_init_aborts zephyrOpt envEnableFails (Or.inr (Or.inl (by decide)))).1,
    (main_fatal_init_aborts zephyrOpt envEnableFails (Or.inr (Or.inl (by decide)))).2.1,
    (main_fatal_init_aborts zephyrOpt envEnableFails (Or.inr (Or.inl (by decide)))).2.2.2.2,
    by decide⟩

/-- C8 fails on the code for the button driver init: when `dk_buttons_init`
returns the error -5 and every other step succeeds, `main` does not abort.
It goes on to `dk_leds_init`, enumerates the bonds, calls `bt_le_adv_start`
and reaches its idle loop, where the claim (and every sibling step) has it
return before the enumeration. -/
theorem main_buttons_init_failure_not_fatal :
    envButtonsFail.dk_buttons_init ≠ 0 ∧
    (main zephyrOpt envButtonsFail boot).2 = MainResult.idle_loop ∧
    (main zephyrOpt envButtonsFail boot).1.trace =
      [Call.dk_buttons_init, Call.dk_leds_init, Call.bt_conn_cb_register,
        Call.bt_conn_auth_cb_register, Call.ble_cb_custom_init, Call.bt_enable,
        Call.settings_load, Call.bt_bms_init bms_init_params, Call.bt_foreach_bond,
        Call.bt_le_adv_start bt_le_adv_param.BT_LE_ADV_CONN []] ∧
    Call.bt_foreach_bond ∈ (main zephyrOpt envButtonsFail boot).1.trace ∧
    (main zephyrOpt envButtonsFail boot).1.trace.filter Call.isAdvStart =
      [Call.bt_le_adv_start bt_le_adv_param.BT_LE_ADV_CONN []] := by
  decide

end BleBms
